import Mathlib

/-!
Shallow embedding of the overlay visibility controller of
`src/pages/overlay/components/overlay/Overlay.tsx` from the
AlveusTwitchExtension repository.

The component owns:
  * `commandAmbassador` — the last ambassador key received as a chat command;
  * `visibleOption` — which panel (welcome / ambassadors / settings) is shown;
  * `timeoutRef` — the stored handle of the auto-dismiss `setTimeout`;
  * `awakingRef` — a one-shot flag suppressing the next interaction callback.

JavaScript timers are modelled explicitly: the state keeps the list of
scheduled (not yet fired, not yet cancelled) dismiss timers, each with a
fresh numeric id and an absolute fire time; `setTimeout` appends a timer and
returns its id, `clearTimeout` removes the timer with a given id (a no-op if
no such timer is pending).  Time passing is the `advance` function, which
fires every timer that has come due; a dismiss timer's callback is
`setVisibleOption(undefined)`.  The external `wake(time)` effect is recorded
in a log, and the ambassador-key resolver `isAmbassadorKey` (an external
catalog module) is a `String → Bool` parameter.
-/

namespace AlveusOverlay

/-- The panel keys of `overlayOptions` in Overlay.tsx
(`'welcome' | 'ambassadors' | 'settings'`). -/
inductive OverlayKey where
  | welcome
  | ambassadors
  | settings
deriving DecidableEq, Repr

/-- A scheduled `setTimeout` dismiss timer: its numeric handle and the
absolute time at which it fires. -/
structure Timer where
  id : Nat
  fireAt : Nat
deriving DecidableEq, Repr

/-- One DOM element returned by `document.elementsFromPoint`, reduced to the
three facts `bodyClick` inspects: whether it is `document.body`, its computed
`backgroundImage`, and its computed `backgroundColor`. -/
structure Surface where
  isBody : Bool
  backgroundImage : String
  backgroundColor : String
deriving DecidableEq, Repr

/-- The state of the Overlay component: its React state and refs, together
with the explicit timer queue and the log of `wake` calls. -/
structure OverlayState where
  now : Nat
  commandAmbassador : Option String
  visibleOption : Option OverlayKey
  pending : List Timer
  nextId : Nat
  timeoutRef : Option Nat
  awaking : Bool
  wakeLog : List Nat
deriving DecidableEq, Repr

/-- `commandDelay = 8000` in Overlay.tsx. -/
def commandDelay : Nat := 8000

/-- `clearTimeout(h)`: drop the pending timer whose handle is `h`;
clearing an already-fired or already-cancelled handle removes nothing. -/
def clearTimeout (s : OverlayState) (h : Nat) : OverlayState :=
  { s with pending := s.pending.filter (fun tm => tm.id != h) }

/-- `if (timeoutRef.current) clearTimeout(timeoutRef.current)` — the cancel
pattern used by the command callback, the interaction callback and the
unmount cleanup. -/
def clearCurrent (s : OverlayState) : OverlayState :=
  match s.timeoutRef with
  | some h => clearTimeout s h
  | none => s

/-- The `useChatCommand` callback of Overlay.tsx.  `isAmb` is the external
`isAmbassadorKey` resolver and `disable` is `settings.disableChatPopup.value`.
Mirrors the source line by line: guard on the disable flag; record an
ambassador command, bail out on anything else that is not `"welcome"`; show
the card; cancel and reschedule the dismiss timeout for `commandDelay`; set
the awaking ref and call `wake(commandDelay)`. -/
def onCommand (isAmb : String → Bool) (disable : Bool) (cmd : String)
    (s : OverlayState) : OverlayState :=
  if disable then s
  else if !isAmb cmd && cmd != "welcome" then s
  else
    let s1 := if isAmb cmd then { s with commandAmbassador := some cmd } else s
    let pick := if cmd == "welcome" then OverlayKey.welcome else OverlayKey.ambassadors
    let s2 := { s1 with visibleOption := some pick }
    let s3 := clearCurrent s2
    { s3 with
      pending := s3.pending ++ [⟨s3.nextId, s3.now + commandDelay⟩],
      timeoutRef := some s3.nextId,
      nextId := s3.nextId + 1,
      awaking := true,
      wakeLog := commandDelay :: s3.wakeLog }

/-- The `awoken` interaction callback of Overlay.tsx:
`if (awakingRef.current) awakingRef.current = false;
else if (timeoutRef.current) clearTimeout(timeoutRef.current)`. -/
def onInteraction (s : OverlayState) : OverlayState :=
  if s.awaking then { s with awaking := false }
  else clearCurrent s

/-- Time passing by `d` units: every pending timer whose fire time has come
due fires (its callback is `setVisibleOption(undefined)`) and leaves the
queue.  The stored `timeoutRef` handle is not cleared by firing, exactly as
in the source. -/
def advance (s : OverlayState) (d : Nat) : OverlayState :=
  let t := s.now + d
  { s with
    now := t,
    visibleOption :=
      if s.pending.any (fun tm => decide (tm.fireAt ≤ t)) then none
      else s.visibleOption,
    pending := s.pending.filter (fun tm => decide (t < tm.fireAt)) }

/-- The element walk of `bodyClick`: stop (allow the dismiss) upon reaching
`document.body`; ignore the click if an element with a background image or a
background color other than `rgba(0, 0, 0, 0)` comes first. -/
def isOpaque (el : Surface) : Bool :=
  el.backgroundImage != "none" || el.backgroundColor != "rgba(0, 0, 0, 0)"

/-- The loop of `bodyClick` over `document.elementsFromPoint`: `true` means
the click hit content and is ignored. -/
def clickBlocked : List Surface → Bool
  | [] => false
  | el :: rest =>
    if el.isBody then false
    else if isOpaque el then true
    else clickBlocked rest

/-- The `bodyClick` capture-phase handler: dismiss the panels
(`setVisibleOption(undefined)`) unless some element above the body has a
visible background. -/
def bodyClick (s : OverlayState) (elements : List Surface) : OverlayState :=
  if clickBlocked elements then s
  else { s with visibleOption := none }

/-- The unmount cleanup of Overlay.tsx:
`if (timeoutRef.current) clearTimeout(timeoutRef.current)`. -/
def dispose (s : OverlayState) : OverlayState :=
  clearCurrent s

/-- The `Buttons` collaborator: `onClick={setVisibleOption}`. -/
def buttonClick (s : OverlayState) (k : OverlayKey) : OverlayState :=
  { s with visibleOption := some k }

/-- Initial component state: no command ambassador, no visible option, no
timer scheduled, awaking ref `false`. -/
def initState : OverlayState :=
  { now := 0
    commandAmbassador := none
    visibleOption := none
    pending := []
    nextId := 0
    timeoutRef := none
    awaking := false
    wakeLog := [] }

/-- Timer-queue invariant: at most one dismiss timer is pending, and a
pending timer's handle is the one stored in `timeoutRef`. -/
def Inv (s : OverlayState) : Prop :=
  s.pending = [] ∨ ∃ tm, s.pending = [tm] ∧ s.timeoutRef = some tm.id

/-- States reachable from the initial state by any sequence of events the
component reacts to. -/
inductive Reachable : OverlayState → Prop where
  | init : Reachable initState
  | command (isAmb : String → Bool) (disable : Bool) (cmd : String)
      {s : OverlayState} : Reachable s → Reachable (onCommand isAmb disable cmd s)
  | interaction {s : OverlayState} : Reachable s → Reachable (onInteraction s)
  | elapse (d : Nat) {s : OverlayState} : Reachable s → Reachable (advance s d)
  | click (elements : List Surface) {s : OverlayState} :
      Reachable s → Reachable (bodyClick s elements)
  | button (k : OverlayKey) {s : OverlayState} :
      Reachable s → Reachable (buttonClick s k)
  | teardown {s : OverlayState} : Reachable s → Reachable (dispose s)

/-! ### Helper lemmas -/

theorem clearCurrent_now (s : OverlayState) : (clearCurrent s).now = s.now := by
  unfold clearCurrent
  cases htr : s.timeoutRef <;> simp [clearTimeout]

theorem clearCurrent_visibleOption (s : OverlayState) :
    (clearCurrent s).visibleOption = s.visibleOption := by
  unfold clearCurrent
  cases htr : s.timeoutRef <;> simp [clearTimeout]

theorem clearCurrent_commandAmbassador (s : OverlayState) :
    (clearCurrent s).commandAmbassador = s.commandAmbassador := by
  unfold clearCurrent
  cases htr : s.timeoutRef <;> simp [clearTimeout]

theorem clearCurrent_timeoutRef (s : OverlayState) :
    (clearCurrent s).timeoutRef = s.timeoutRef := by
  unfold clearCurrent
  cases htr : s.timeoutRef <;> simp [clearTimeout, htr]

theorem clearCurrent_awaking (s : OverlayState) :
    (clearCurrent s).awaking = s.awaking := by
  unfold clearCurrent
  cases htr : s.timeoutRef <;> simp [clearTimeout]

theorem clearCurrent_pending_nil (s : OverlayState) (hInv : Inv s) :
    (clearCurrent s).pending = [] := by
  rcases hInv with hp | ⟨tm, hp, ht⟩
  · unfold clearCurrent
    cases htr : s.timeoutRef <;> simp [clearTimeout, hp]
  · unfold clearCurrent
    rw [ht]
    simp [clearTimeout, hp]

/-- Closed form of the command callback on a recognized command with the
chat popup enabled, from a state satisfying the timer invariant. -/
theorem onCommand_state (isAmb : String → Bool) (cmd : String) (s : OverlayState)
    (hrec : isAmb cmd = true ∨ cmd = "welcome") (hInv : Inv s) :
    onCommand isAmb false cmd s =
      { now := s.now
        commandAmbassador := if isAmb cmd then some cmd else s.commandAmbassador
        visibleOption :=
          some (if cmd == "welcome" then OverlayKey.welcome else OverlayKey.ambassadors)
        pending := [⟨s.nextId, s.now + commandDelay⟩]
        nextId := s.nextId + 1
        timeoutRef := some s.nextId
        awaking := true
        wakeLog := commandDelay :: s.wakeLog } := by
  cases hia : isAmb cmd with
  | true =>
    rcases hInv with hp | ⟨tm, hp, ht⟩
    · cases htr : s.timeoutRef <;>
        simp [onCommand, clearCurrent, clearTimeout, hia, hp, htr]
    · simp [onCommand, clearCurrent, clearTimeout, hia, hp, ht]
  | false =>
    have hW : cmd = "welcome" := by
      rcases hrec with h | h
      · rw [hia] at h
        exact absurd h (by simp)
      · exact h
    subst hW
    rcases hInv with hp | ⟨tm, hp, ht⟩
    · cases htr : s.timeoutRef <;>
        simp [onCommand, clearCurrent, clearTimeout, hia, hp, htr]
    · simp [onCommand, clearCurrent, clearTimeout, hia, hp, ht]

theorem inv_clearCurrent (s : OverlayState) (h : Inv s) : Inv (clearCurrent s) :=
  Or.inl (clearCurrent_pending_nil s h)

theorem inv_onCommand (isAmb : String → Bool) (disable : Bool) (cmd : String)
    (s : OverlayState) (h : Inv s) : Inv (onCommand isAmb disable cmd s) := by
  cases disable with
  | true => simpa [onCommand] using h
  | false =>
    cases hg : (!isAmb cmd && cmd != "welcome") with
    | true => simpa [onCommand, hg] using h
    | false =>
      have hrec : isAmb cmd = true ∨ cmd = "welcome" := by
        have h2 : isAmb cmd = false → cmd = "welcome" := by simpa using hg
        cases hia : isAmb cmd with
        | false => exact Or.inr (h2 hia)
        | true => exact Or.inl rfl
      rw [onCommand_state isAmb cmd s hrec h]
      exact Or.inr ⟨⟨s.nextId, s.now + commandDelay⟩, rfl, rfl⟩

theorem inv_onInteraction (s : OverlayState) (h : Inv s) : Inv (onInteraction s) := by
  unfold onInteraction
  cases ha : s.awaking with
  | true =>
    rw [if_pos rfl]
    rcases h with hp | ⟨tm, hp, ht⟩
    · exact Or.inl hp
    · exact Or.inr ⟨tm, hp, ht⟩
  | false =>
    rw [if_neg (by simp)]
    exact inv_clearCurrent s h

theorem inv_advance (s : OverlayState) (d : Nat) (h : Inv s) : Inv (advance s d) := by
  unfold advance
  rcases h with hp | ⟨tm, hp, ht⟩
  · exact Or.inl (by simp [hp])
  · rw [hp]
    cases hdue : decide (s.now + d < tm.fireAt) with
    | true => exact Or.inr ⟨tm, by simp [List.filter, hdue], ht⟩
    | false => exact Or.inl (by simp [List.filter, hdue])

theorem inv_bodyClick (s : OverlayState) (elements : List Surface) (h : Inv s) :
    Inv (bodyClick s elements) := by
  unfold bodyClick
  cases hb : clickBlocked elements with
  | true => simpa using h
  | false =>
    rw [if_neg (by simp)]
    rcases h with hp | ⟨tm, hp, ht⟩
    · exact Or.inl hp
    · exact Or.inr ⟨tm, hp, ht⟩

theorem inv_buttonClick (s : OverlayState) (k : OverlayKey) (h : Inv s) :
    Inv (buttonClick s k) := by
  rcases h with hp | ⟨tm, hp, ht⟩
  · exact Or.inl hp
  · exact Or.inr ⟨tm, hp, ht⟩

theorem inv_dispose (s : OverlayState) (h : Inv s) : Inv (dispose s) :=
  inv_clearCurrent s h

/-- Every reachable state satisfies the timer invariant. -/
theorem reachable_inv (s : OverlayState) (h : Reachable s) : Inv s := by
  induction h with
  | init => exact Or.inl rfl
  | command isAmb disable cmd _ ih => exact inv_onCommand isAmb disable cmd _ ih
  | interaction _ ih => exact inv_onInteraction _ ih
  | elapse d _ ih => exact inv_advance _ d ih
  | click elements _ ih => exact inv_bodyClick _ elements ih
  | button k _ ih => exact inv_buttonClick _ k ih
  | teardown _ ih => exact inv_dispose _ ih

/-- Panel choice of a recognized command, independent of the timer invariant. -/
theorem onCommand_visibleOption (isAmb : String → Bool) (cmd : String)
    (s : OverlayState) (hrec : isAmb cmd = true ∨ cmd = "welcome") :
    (onCommand isAmb false cmd s).visibleOption =
      some (if cmd == "welcome" then OverlayKey.welcome else OverlayKey.ambassadors) := by
  have hguard : (!isAmb cmd && cmd != "welcome") = false := by
    rcases hrec with h | h <;> simp [h]
  simp [onCommand, hguard, clearCurrent_visibleOption]

/-- Command-subject recording of a recognized command, independent of the
timer invariant. -/
theorem onCommand_commandAmbassador (isAmb : String → Bool) (cmd : String)
    (s : OverlayState) (hrec : isAmb cmd = true ∨ cmd = "welcome") :
    (onCommand isAmb false cmd s).commandAmbassador =
      (if isAmb cmd then some cmd else s.commandAmbassador) := by
  cases hia : isAmb cmd with
  | true => simp [onCommand, hia, clearCurrent_commandAmbassador]
  | false =>
    have hw : cmd = "welcome" := by
      rcases hrec with h | h
      · rw [hia] at h
        exact absurd h (by simp)
      · exact h
    subst hw
    simp [onCommand, hia, clearCurrent_commandAmbassador]

/-- The `bodyClick` walk finds content exactly when some element strictly
above `document.body` in the stacking order has a visible background. -/
theorem clickBlocked_iff (elements : List Surface) :
    clickBlocked elements = true ↔
      ∃ el ∈ elements.takeWhile (fun el => !el.isBody), isOpaque el = true := by
  induction elements with
  | nil => simp [clickBlocked]
  | cons el rest ih =>
    cases hb : el.isBody
    · cases ho : isOpaque el
      · simp [clickBlocked, hb, ho, ih]
      · simp [clickBlocked, hb, ho]
    · simp [clickBlocked, hb]

/-! ### Claim theorems -/

/-- C1: for every recognized command (a known ambassador key or the literal
`"welcome"`) received while the disable flag is unset, `onCommand` sets the
visible panel to the corresponding one, cancels any pending dismiss timer and
schedules a new one for exactly `commandDelay = 8000` time units, sets the
awaking flag, and invokes the external `wake` effect with that same delay;
with no further events, 8000 time units later the timer fires and the visible
panel becomes `none`. -/
theorem command_wakes_and_auto_dismisses (isAmb : String → Bool) (cmd : String)
    (s : OverlayState) (hInv : Inv s)
    (hrec : isAmb cmd = true ∨ cmd = "welcome") :
    (onCommand isAmb false cmd s).visibleOption =
      some (if cmd == "welcome" then OverlayKey.welcome else OverlayKey.ambassadors) ∧
    (onCommand isAmb false cmd s).pending = [⟨s.nextId, s.now + 8000⟩] ∧
    (onCommand isAmb false cmd s).awaking = true ∧
    (onCommand isAmb false cmd s).wakeLog = 8000 :: s.wakeLog ∧
    (advance (onCommand isAmb false cmd s) 8000).visibleOption = none ∧
    (advance (onCommand isAmb false cmd s) 8000).pending = [] := by
  rw [onCommand_state isAmb cmd s hrec hInv]
  refine ⟨rfl, rfl, rfl, rfl, ?_, ?_⟩
  · simp [advance, commandDelay]
  · simp [advance, commandDelay]

/-- Witness for C1 at the ambassador command `"snork"` from the initial
state. -/
theorem command_wakes_and_auto_dismisses_witness :
    Inv initState ∧
    ((fun c => c == "snork") "snork" = true ∨ "snork" = "welcome") ∧
    ((onCommand (fun c => c == "snork") false "snork" initState).visibleOption =
      some (if "snork" == "welcome" then OverlayKey.welcome else OverlayKey.ambassadors) ∧
    (onCommand (fun c => c == "snork") false "snork" initState).pending =
      [⟨initState.nextId, initState.now + 8000⟩] ∧
    (onCommand (fun c => c == "snork") false "snork" initState).awaking = true ∧
    (onCommand (fun c => c == "snork") false "snork" initState).wakeLog =
      8000 :: initState.wakeLog ∧
    (advance (onCommand (fun c => c == "snork") false "snork" initState) 8000).visibleOption =
      none ∧
    (advance (onCommand (fun c => c == "snork") false "snork" initState) 8000).pending = []) :=
  ⟨Or.inl rfl, Or.inl (by decide),
    command_wakes_and_auto_dismisses (fun c => c == "snork") "snork" initState
      (Or.inl rfl) (Or.inl (by decide))⟩

/-- C2: with the popup enabled, a command matching a known ambassador key
records it as the command subject and shows the Ambassadors panel (ambassador
matching takes priority, given that `"welcome"` is not itself an ambassador
key), while the literal `"welcome"` command shows the Welcome panel. -/
theorem ambassador_key_priority (isAmb : String → Bool) (c1 c2 : String)
    (s t : OverlayState) (hcw : isAmb "welcome" = false)
    (h1 : isAmb c1 = true) (h2 : c2 = "welcome") :
    (onCommand isAmb false c1 s).commandAmbassador = some c1 ∧
    (onCommand isAmb false c1 s).visibleOption = some OverlayKey.ambassadors ∧
    (onCommand isAmb false c2 t).visibleOption = some OverlayKey.welcome := by
  have hc1w : (c1 == "welcome") = false := by
    cases he : c1 == "welcome"
    · rfl
    · exfalso
      have hce : c1 = "welcome" := by simpa using he
      rw [hce, hcw] at h1
      exact Bool.noConfusion h1
  refine ⟨?_, ?_, ?_⟩
  · rw [onCommand_commandAmbassador isAmb c1 s (Or.inl h1)]
    simp [h1]
  · rw [onCommand_visibleOption isAmb c1 s (Or.inl h1)]
    simp [hc1w]
  · subst h2
    rw [onCommand_visibleOption isAmb "welcome" t (Or.inr rfl)]
    simp

/-- Witness for C2 with the resolver recognizing exactly `"snork"`. -/
theorem ambassador_key_priority_witness :
    (fun c => c == "snork") "welcome" = false ∧
    (fun c => c == "snork") "snork" = true ∧
    ("welcome" : String) = "welcome" ∧
    ((onCommand (fun c => c == "snork") false "snork" initState).commandAmbassador =
      some "snork" ∧
    (onCommand (fun c => c == "snork") false "snork" initState).visibleOption =
      some OverlayKey.ambassadors ∧
    (onCommand (fun c => c == "snork") false "welcome" initState).visibleOption =
      some OverlayKey.welcome) :=
  ⟨by decide, by decide, rfl,
    ambassador_key_priority (fun c => c == "snork") "snork" "welcome"
      initState initState (by decide) (by decide) rfl⟩

/-- C3: when the awaking flag is set, the interaction callback only clears
the flag (the pending dismiss stays pending); when it is unset, it cancels
the pending dismiss timer (if any) without touching the visible panel or the
command subject.  Hence after a command wake the first interaction does not
cancel the pending dismiss and a second one does. -/
theorem interaction_wake_suppression (isAmb : String → Bool) (cmd : String)
    (s t u : OverlayState) (hInv : Inv s)
    (hrec : isAmb cmd = true ∨ cmd = "welcome")
    (ht : t.awaking = true) (hu : u.awaking = false) (huI : Inv u) :
    onInteraction t = { t with awaking := false } ∧
    (onInteraction u).pending = [] ∧
    (onInteraction u).visibleOption = u.visibleOption ∧
    (onInteraction u).commandAmbassador = u.commandAmbassador ∧
    (onInteraction (onCommand isAmb false cmd s)).pending =
      (onCommand isAmb false cmd s).pending ∧
    (onCommand isAmb false cmd s).pending ≠ [] ∧
    (onInteraction (onInteraction (onCommand isAmb false cmd s))).pending = [] := by
  have hpartA : onInteraction t = { t with awaking := false } := by
    unfold onInteraction
    rw [if_pos ht]
  have hpartB1 : (onInteraction u).pending = [] := by
    unfold onInteraction
    rw [if_neg (by simp [hu])]
    exact clearCurrent_pending_nil u huI
  have hpartB2 : (onInteraction u).visibleOption = u.visibleOption := by
    unfold onInteraction
    rw [if_neg (by simp [hu])]
    exact clearCurrent_visibleOption u
  have hpartB3 : (onInteraction u).commandAmbassador = u.commandAmbassador := by
    unfold onInteraction
    rw [if_neg (by simp [hu])]
    exact clearCurrent_commandAmbassador u
  refine ⟨hpartA, hpartB1, hpartB2, hpartB3, ?_, ?_, ?_⟩
  · rw [onCommand_state isAmb cmd s hrec hInv]
    simp [onInteraction]
  · rw [onCommand_state isAmb cmd s hrec hInv]
    simp
  · rw [onCommand_state isAmb cmd s hrec hInv]
    simp [onInteraction, clearCurrent, clearTimeout]

/-- Witness for C3: command `"snork"` from the initial state, a state with
the awaking flag set, and the initial state (flag unset). -/
theorem interaction_wake_suppression_witness :
    Inv initState ∧
    ((fun c => c == "snork") "snork" = true ∨ "snork" = "welcome") ∧
    ({ initState with awaking := true } : OverlayState).awaking = true ∧
    initState.awaking = false ∧
    Inv initState ∧
    (onInteraction { initState with awaking := true } =
      { ({ initState with awaking := true } : OverlayState) with awaking := false } ∧
    (onInteraction initState).pending = [] ∧
    (onInteraction initState).visibleOption = initState.visibleOption ∧
    (onInteraction initState).commandAmbassador = initState.commandAmbassador ∧
    (onInteraction (onCommand (fun c => c == "snork") false "snork" initState)).pending =
      (onCommand (fun c => c == "snork") false "snork" initState).pending ∧
    (onCommand (fun c => c == "snork") false "snork" initState).pending ≠ [] ∧
    (onInteraction (onInteraction
      (onCommand (fun c => c == "snork") false "snork" initState))).pending = []) :=
  ⟨Or.inl rfl, Or.inl (by decide), rfl, rfl, Or.inl rfl,
    interaction_wake_suppression (fun c => c == "snork") "snork"
      initState { initState with awaking := true } initState
      (Or.inl rfl) (Or.inl (by decide)) rfl rfl (Or.inl rfl)⟩

/-- C4: in every reachable state at most one dismiss timer is pending, and
for two recognized commands issued 1000 time units apart the only pending
timer after the second command is the one it scheduled, firing 8000 units
after the second command (nothing fires earlier, in particular not the first
command's timer). -/
theorem single_pending_timer_and_reschedule (s : OverlayState)
    (hs : Reachable s) (isAmb : String → Bool) (c1 c2 : String) (d : Nat)
    (h1 : isAmb c1 = true ∨ c1 = "welcome")
    (h2 : isAmb c2 = true ∨ c2 = "welcome") (hd : d < 8000) :
    s.pending.length ≤ 1 ∧
    (onCommand isAmb false c2
      (advance (onCommand isAmb false c1 initState) 1000)).pending = [⟨1, 9000⟩] ∧
    (advance (onCommand isAmb false c2
      (advance (onCommand isAmb false c1 initState) 1000)) d).visibleOption =
      (onCommand isAmb false c2
        (advance (onCommand isAmb false c1 initState) 1000)).visibleOption ∧
    (advance (onCommand isAmb false c2
      (advance (onCommand isAmb false c1 initState) 1000)) d).pending =
      (onCommand isAmb false c2
        (advance (onCommand isAmb false c1 initState) 1000)).pending ∧
    (advance (onCommand isAmb false c2
      (advance (onCommand isAmb false c1 initState) 1000)) 8000).visibleOption = none := by
  have hlen : s.pending.length ≤ 1 := by
    rcases reachable_inv s hs with hp | ⟨tm, hp, _⟩
    · simp [hp]
    · simp [hp]
  have e1 : advance (onCommand isAmb false c1 initState) 1000 =
      { now := 1000
        commandAmbassador := if isAmb c1 then some c1 else none
        visibleOption :=
          some (if c1 == "welcome" then OverlayKey.welcome else OverlayKey.ambassadors)
        pending := [⟨0, 8000⟩]
        nextId := 1
        timeoutRef := some 0
        awaking := true
        wakeLog := [8000] } := by
    rw [onCommand_state isAmb c1 initState h1 (Or.inl rfl)]
    simp [advance, initState, commandDelay]
  have e2 : onCommand isAmb false c2
      (advance (onCommand isAmb false c1 initState) 1000) =
      { now := 1000
        commandAmbassador :=
          if isAmb c2 then some c2 else (if isAmb c1 then some c1 else none)
        visibleOption :=
          some (if c2 == "welcome" then OverlayKey.welcome else OverlayKey.ambassadors)
        pending := [⟨1, 9000⟩]
        nextId := 2
        timeoutRef := some 1
        awaking := true
        wakeLog := [8000, 8000] } := by
    rw [e1, onCommand_state isAmb c2 _ h2 (Or.inr ⟨⟨0, 8000⟩, rfl, rfl⟩)]
    simp [commandDelay]
  have hnd : ¬ (9000 ≤ 1000 + d) := by omega
  have hd2 : 1000 + d < 9000 := by omega
  refine ⟨hlen, by rw [e2], ?_, ?_, ?_⟩
  · rw [e2]
    simp [advance, hnd]
  · rw [e2]
    simp [advance, hd2]
  · rw [e2]
    simp [advance]

/-- Witness for C4: the initial state, two `"snork"` commands, and an elapse
of 7999 units after the second command. -/
theorem single_pending_timer_and_reschedule_witness :
    Reachable initState ∧
    ((fun c => c == "snork") "snork" = true ∨ "snork" = "welcome") ∧
    (7999 < 8000) ∧
    (initState.pending.length ≤ 1 ∧
    (onCommand (fun c => c == "snork") false "snork"
      (advance (onCommand (fun c => c == "snork") false "snork" initState) 1000)).pending =
        [⟨1, 9000⟩] ∧
    (advance (onCommand (fun c => c == "snork") false "snork"
      (advance (onCommand (fun c => c == "snork") false "snork" initState) 1000))
        7999).visibleOption =
      (onCommand (fun c => c == "snork") false "snork"
        (advance (onCommand (fun c => c == "snork") false "snork" initState) 1000)).visibleOption ∧
    (advance (onCommand (fun c => c == "snork") false "snork"
      (advance (onCommand (fun c => c == "snork") false "snork" initState) 1000))
        7999).pending =
      (onCommand (fun c => c == "snork") false "snork"
        (advance (onCommand (fun c => c == "snork") false "snork" initState) 1000)).pending ∧
    (advance (onCommand (fun c => c == "snork") false "snork"
      (advance (onCommand (fun c => c == "snork") false "snork" initState) 1000))
        8000).visibleOption = none) :=
  ⟨Reachable.init, Or.inl (by decide), by decide,
    single_pending_timer_and_reschedule initState Reachable.init
      (fun c => c == "snork") "snork" "snork" 7999
      (Or.inl (by decide)) (Or.inl (by decide)) (by decide)⟩

/-- C5: a command that is neither a known ambassador key nor the literal
`"welcome"` leaves the whole component state unchanged — no panel change, no
command subject change, no timer cancelled or started, no awaking flag, no
wake call. -/
theorem unrecognized_command_noop (isAmb : String → Bool) (disable : Bool)
    (cmd : String) (s : OverlayState)
    (h1 : isAmb cmd = false) (h2 : cmd ≠ "welcome") :
    onCommand isAmb disable cmd s = s := by
  cases disable with
  | true => simp [onCommand]
  | false =>
    have hg : (!isAmb cmd && cmd != "welcome") = true := by simp [h1, h2]
    simp [onCommand, hg]

/-- Witness for C5 at the unrecognized command `"!hello"`. -/
theorem unrecognized_command_noop_witness :
    (fun c => c == "snork") "!hello" = false ∧
    ("!hello" : String) ≠ "welcome" ∧
    onCommand (fun c => c == "snork") false "!hello" initState = initState :=
  ⟨by decide, by decide,
    unrecognized_command_noop (fun c => c == "snork") false "!hello" initState
      (by decide) (by decide)⟩

/-- C6: a body click whose element stack contains a surface with a visible
background before `document.body` is ignored entirely; a click whose stack is
fully transparent up to the body sets the visible panel to `none` at once,
leaving the timer queue, the stored timer handle and the command subject
untouched. -/
theorem outside_click_dismissal (s t : OverlayState)
    (els1 els2 : List Surface)
    (h1 : ∃ el ∈ els1.takeWhile (fun el => !el.isBody), isOpaque el = true)
    (h2 : ∀ el ∈ els2.takeWhile (fun el => !el.isBody), isOpaque el = false) :
    bodyClick s els1 = s ∧
    (bodyClick t els2).visibleOption = none ∧
    (bodyClick t els2).pending = t.pending ∧
    (bodyClick t els2).timeoutRef = t.timeoutRef ∧
    (bodyClick t els2).commandAmbassador = t.commandAmbassador := by
  have hb1 : clickBlocked els1 = true := (clickBlocked_iff els1).mpr h1
  have hb2 : clickBlocked els2 = false := by
    cases hc : clickBlocked els2
    · rfl
    · exfalso
      rcases (clickBlocked_iff els2).mp hc with ⟨el, hmem, hop⟩
      rw [h2 el hmem] at hop
      exact Bool.noConfusion hop
  refine ⟨by simp [bodyClick, hb1], ?_, ?_, ?_, ?_⟩ <;> simp [bodyClick, hb2]

/-- Witness for C6: an opaque card above the body versus a fully transparent
stack ending at the body. -/
theorem outside_click_dismissal_witness :
    (∃ el ∈ ([⟨false, "none", "rgb(38, 56, 43)"⟩, ⟨true, "none", "rgba(0, 0, 0, 0)"⟩] :
        List Surface).takeWhile (fun el => !el.isBody), isOpaque el = true) ∧
    (∀ el ∈ ([⟨false, "none", "rgba(0, 0, 0, 0)"⟩, ⟨true, "none", "rgba(0, 0, 0, 0)"⟩] :
        List Surface).takeWhile (fun el => !el.isBody), isOpaque el = false) ∧
    (bodyClick { initState with visibleOption := some OverlayKey.welcome }
        [⟨false, "none", "rgb(38, 56, 43)"⟩, ⟨true, "none", "rgba(0, 0, 0, 0)"⟩] =
      { initState with visibleOption := some OverlayKey.welcome } ∧
    (bodyClick { initState with visibleOption := some OverlayKey.welcome }
        [⟨false, "none", "rgba(0, 0, 0, 0)"⟩, ⟨true, "none", "rgba(0, 0, 0, 0)"⟩]).visibleOption =
      none ∧
    (bodyClick { initState with visibleOption := some OverlayKey.welcome }
        [⟨false, "none", "rgba(0, 0, 0, 0)"⟩, ⟨true, "none", "rgba(0, 0, 0, 0)"⟩]).pending =
      ({ initState with visibleOption := some OverlayKey.welcome } : OverlayState).pending ∧
    (bodyClick { initState with visibleOption := some OverlayKey.welcome }
        [⟨false, "none", "rgba(0, 0, 0, 0)"⟩, ⟨true, "none", "rgba(0, 0, 0, 0)"⟩]).timeoutRef =
      ({ initState with visibleOption := some OverlayKey.welcome } : OverlayState).timeoutRef ∧
    (bodyClick { initState with visibleOption := some OverlayKey.welcome }
        [⟨false, "none", "rgba(0, 0, 0, 0)"⟩, ⟨true, "none", "rgba(0, 0, 0, 0)"⟩]).commandAmbassador =
      ({ initState with visibleOption := some OverlayKey.welcome } : OverlayState).commandAmbassador) :=
  ⟨by decide, by decide,
    outside_click_dismissal
      { initState with visibleOption := some OverlayKey.welcome }
      { initState with visibleOption := some OverlayKey.welcome }
      [⟨false, "none", "rgb(38, 56, 43)"⟩, ⟨true, "none", "rgba(0, 0, 0, 0)"⟩]
      [⟨false, "none", "rgba(0, 0, 0, 0)"⟩, ⟨true, "none", "rgba(0, 0, 0, 0)"⟩]
      (by decide) (by decide)⟩

/-- C7: with `settings.disableChatPopup.value` set, the command callback is a
complete no-op for every command string: panel, command subject, awaking
flag, timer queue and wake log are all unchanged. -/
theorem disabled_chat_popup_noop (isAmb : String → Bool) (cmd : String)
    (s : OverlayState) : onCommand isAmb true cmd s = s := by
  simp [onCommand]

/-- C8: unmount cleanup cancels any pending dismiss timer, so no state
mutation happens after disposal: waiting any amount of time past disposal
leaves the visible panel as it was. -/
theorem dispose_cancels_pending (s : OverlayState) (d : Nat) (hInv : Inv s) :
    (dispose s).pending = [] ∧
    (dispose s).visibleOption = s.visibleOption ∧
    (advance (dispose s) d).visibleOption = s.visibleOption := by
  have hp : (dispose s).pending = [] := clearCurrent_pending_nil s hInv
  have hv : (dispose s).visibleOption = s.visibleOption :=
    clearCurrent_visibleOption s
  refine ⟨hp, hv, ?_⟩
  simp [advance, hp, hv]

/-- Witness for C8: dispose a state with the Welcome panel visible and its
dismiss timer pending, then wait 10000 units. -/
theorem dispose_cancels_pending_witness :
    Inv { initState with
      visibleOption := some OverlayKey.welcome
      pending := [⟨0, 8000⟩]
      timeoutRef := some 0 } ∧
    ((dispose { initState with
        visibleOption := some OverlayKey.welcome
        pending := [⟨0, 8000⟩]
        timeoutRef := some 0 }).pending = [] ∧
    (dispose { initState with
        visibleOption := some OverlayKey.welcome
        pending := [⟨0, 8000⟩]
        timeoutRef := some 0 }).visibleOption =
      ({ initState with
        visibleOption := some OverlayKey.welcome
        pending := [⟨0, 8000⟩]
        timeoutRef := some 0 } : OverlayState).visibleOption ∧
    (advance (dispose { initState with
        visibleOption := some OverlayKey.welcome
        pending := [⟨0, 8000⟩]
        timeoutRef := some 0 }) 10000).visibleOption =
      ({ initState with
        visibleOption := some OverlayKey.welcome
        pending := [⟨0, 8000⟩]
        timeoutRef := some 0 } : OverlayState).visibleOption) :=
  ⟨Or.inr ⟨⟨0, 8000⟩, rfl, rfl⟩,
    dispose_cancels_pending
      { initState with
        visibleOption := some OverlayKey.welcome
        pending := [⟨0, 8000⟩]
        timeoutRef := some 0 } 10000 (Or.inr ⟨⟨0, 8000⟩, rfl, rfl⟩)⟩

/-- C9: cancelling a timer that is no longer pending (already fired or
already cancelled) changes nothing, and an interaction arriving with the
awaking flag unset after the dismiss timer has fired changes nothing. -/
theorem cancel_already_fired_noop (s u : OverlayState) (h : Nat)
    (hs : ∀ tm ∈ s.pending, tm.id ≠ h)
    (hu1 : u.awaking = false) (hu2 : u.pending = []) :
    clearTimeout s h = s ∧ onInteraction u = u := by
  constructor
  · unfold clearTimeout
    have hf : s.pending.filter (fun tm => tm.id != h) = s.pending :=
      List.filter_eq_self.mpr (fun tm hm => by simpa using hs tm hm)
    rw [hf]
  · unfold onInteraction
    rw [if_neg (by simp [hu1])]
    unfold clearCurrent
    cases htr : u.timeoutRef with
    | none => rfl
    | some v =>
      show { u with pending := u.pending.filter (fun tm => tm.id != v) } = u
      have hf : u.pending.filter (fun tm => tm.id != v) = u.pending := by
        rw [hu2]
        rfl
      rw [hf]

/-- Witness for C9: cancel handle 5 while only timer 0 is pending, and an
interaction on a state whose timer has already fired (stale stored handle,
empty queue, awaking unset). -/
theorem cancel_already_fired_noop_witness :
    (∀ tm ∈ ({ initState with
        pending := [⟨0, 8000⟩]
        timeoutRef := some 0 } : OverlayState).pending, tm.id ≠ 5) ∧
    ({ initState with timeoutRef := some 0 } : OverlayState).awaking = false ∧
    ({ initState with timeoutRef := some 0 } : OverlayState).pending = [] ∧
    (clearTimeout { initState with
        pending := [⟨0, 8000⟩]
        timeoutRef := some 0 } 5 =
      { initState with
        pending := [⟨0, 8000⟩]
        timeoutRef := some 0 } ∧
    onInteraction { initState with timeoutRef := some 0 } =
      { initState with timeoutRef := some 0 }) :=
  ⟨by decide, rfl, rfl,
    cancel_already_fired_noop
      { initState with pending := [⟨0, 8000⟩], timeoutRef := some 0 }
      { initState with timeoutRef := some 0 } 5 (by decide) rfl rfl⟩

/-- C10: dismissal never clears the recorded command subject — timer firing
(time passing), an outside click, an interaction, a panel button click, and
disposal all leave `commandAmbassador` unchanged. -/
theorem dismissal_preserves_command_subject (s : OverlayState) (d : Nat)
    (elements : List Surface) (k : OverlayKey) :
    (advance s d).commandAmbassador = s.commandAmbassador ∧
    (bodyClick s elements).commandAmbassador = s.commandAmbassador ∧
    (onInteraction s).commandAmbassador = s.commandAmbassador ∧
    (dispose s).commandAmbassador = s.commandAmbassador ∧
    (buttonClick s k).commandAmbassador = s.commandAmbassador := by
  refine ⟨rfl, ?_, ?_, clearCurrent_commandAmbassador s, rfl⟩
  · unfold bodyClick
    cases hb : clickBlocked elements
    · rw [if_neg (by simp [hb])]
    · rw [if_pos (by simp [hb])]
  · unfold onInteraction
    cases ha : s.awaking
    · rw [if_neg (by simp)]
      exact clearCurrent_commandAmbassador s
    · rw [if_pos rfl]

end AlveusOverlay
